import Mathlib

/-!
# Verification of the HTML-to-PDF conversion orchestration layer

Shallow embedding of the conversion service (`server.py`, `helper.py`,
`models.py`): the single-conversion wrapper around the external rendering
engine, the batch fan-out / fan-in and its classification of per-item
outcomes, the result packaging (zip archive vs. inline base64 JSON), the
request validators, the PDF-option builder, and the double-checked-locking
acquisition of the shared browser handle.

The external rendering engine (playwright) is modelled abstractly: each
conversion call is driven by an `EngineBehavior` describing what the engine
did on that call (returned PDF bytes, raised some exception, or exceeded the
overall `asyncio.wait_for` bound).  Python exceptions are modelled by `PyExc`
carrying the dynamic type name, the message (`str(e)`), and whether the value
is an instance of the builtin `TimeoutError` (which is what both
`except asyncio.TimeoutError` and `isinstance(result, TimeoutError)` test on
Python 3.11+).
-/

/-- Configured limits and timeouts (the defaults of the environment variables
in `server.py` lines 44-47). -/
def MAX_BATCH_SIZE : Nat := 50

/-- Default of `MAX_HTML_SIZE` in `server.py` line 45 (`10_000_000` bytes). -/
def MAX_HTML_SIZE : Nat := 10000000

/-- Default of `CONVERSION_TIMEOUT` in `server.py` line 46 (seconds). -/
def CONVERSION_TIMEOUT : Nat := 60

/-- Default of `BROWSER_TIMEOUT` in `server.py` line 47 (seconds). -/
def BROWSER_TIMEOUT : Nat := 30

/-- The fixed branding footer `FOOTER_TEMPLATE` of `server.py` line 59 /
`helper.py` lines 56-60. -/
def FOOTER_TEMPLATE : String :=
  "<div style=\"font-size: 10px; padding: 0; margin: 0; width: 100%; text-align: center; color: rgb(0, 0, 0); font-family: Arial, sans-serif;\"><span>© 2025 LionOBytes — Innovating the future. All rights reserved.</span></div>"

/-- A Python exception value as observed by the handlers in the source:
its dynamic type name (`type(e).__name__`), its message (`str(e)`), and
whether it is an instance of the builtin `TimeoutError`. -/
structure PyExc where
  typeName : String
  msg : String
  isTimeoutError : Bool
deriving Repr, DecidableEq

/-- Behavior of the external rendering engine during one call of
`_convert_html_to_pdf_bytes` (`server.py` 190-220 / `helper.py` 124-172).
Every await inside the `try` block is covered:
`_get_browser()`, `browser.new_page()`, the `set_content` load step and the
`page.pdf` render step (each of the last two wrapped in
`asyncio.wait_for(..., timeout=CONVERSION_TIMEOUT)`). -/
inductive EngineBehavior where
  /-- `_get_browser()` raised (engine could not be created). -/
  | browserFails (e : PyExc)
  /-- `browser.new_page()` raised; no page was opened. -/
  | newPageFails (e : PyExc)
  /-- `set_content` exceeded the overall bound: `asyncio.wait_for` raised
  `asyncio.TimeoutError`. -/
  | loadHangs
  /-- `set_content` raised `e` itself (for example the engine's own
  context-level timeout exception when `BROWSER_TIMEOUT` elapsed, or any
  other load error). -/
  | loadRaises (e : PyExc)
  /-- `page.pdf` exceeded the overall bound: `asyncio.wait_for` raised
  `asyncio.TimeoutError`. -/
  | renderHangs
  /-- `page.pdf` raised `e` itself. -/
  | renderRaises (e : PyExc)
  /-- Both steps returned; the engine produced these PDF bytes. -/
  | returns (pdf : List Nat)
deriving Repr, DecidableEq

/-- The message of the `TimeoutError` raised by the source on an elapsed
`asyncio.wait_for` bound (`server.py` line 208 / `helper.py` 154-157). -/
def timeoutMsg (t : Nat) (index : Option Nat) : String :=
  "Conversion timeout after " ++ toString t ++ "s" ++
    (match index with
     | some i => " for item at index " ++ toString i
     | none => "")

/-- The builtin `TimeoutError` value raised by
`raise TimeoutError(msg)` in the source. -/
def timeoutExc (t : Nat) (index : Option Nat) : PyExc :=
  ⟨"TimeoutError", timeoutMsg t index, true⟩

/-- The `except` clauses of `_convert_html_to_pdf_bytes`: an exception that
is an instance of the builtin `TimeoutError` (which is what
`except asyncio.TimeoutError` catches on Python 3.11+) is replaced by the
source's own `TimeoutError` carrying `CONVERSION_TIMEOUT` and the index;
any other exception is re-raised unchanged (`except Exception as e: raise`). -/
def handleExc (e : PyExc) (index : Option Nat) : PyExc :=
  if e.isTimeoutError then timeoutExc CONVERSION_TIMEOUT index else e

deriving instance DecidableEq for Except

/-- Result of one conversion call: the raised exception or the returned
`(index, pdf_bytes)` pair. -/
abbrev ConvResult := Except PyExc (Nat × List Nat)

/-- Observable trace of one call of `_convert_html_to_pdf_bytes`: whether a
page was opened, whether `page.close()` was attempted in the `finally`
block, whether a failure of `page.close()` was logged (and swallowed), and
the primary outcome. -/
structure ConvRun where
  pageOpened : Bool
  closeAttempted : Bool
  closeFailureLogged : Bool
  result : ConvResult
deriving Repr, DecidableEq

/-- `_convert_html_to_pdf_bytes` (`server.py` 190-220 / `helper.py` 124-172)
under engine behavior `b`; `closeFails` says whether the `page.close()` in
the `finally` block raises.  The `finally` block runs on every exit path;
`page` is only non-`None` after `new_page` returned; a close failure is
caught, logged and swallowed (`server.py` 215-220). -/
def convert_html_to_pdf_bytes (b : EngineBehavior) (closeFails : Bool)
    (index : Option Nat) : ConvRun :=
  match b with
  | .browserFails e => ⟨false, false, false, .error (handleExc e index)⟩
  | .newPageFails e => ⟨false, false, false, .error (handleExc e index)⟩
  | .loadHangs =>
      ⟨true, true, closeFails, .error (timeoutExc CONVERSION_TIMEOUT index)⟩
  | .loadRaises e => ⟨true, true, closeFails, .error (handleExc e index)⟩
  | .renderHangs =>
      ⟨true, true, closeFails, .error (timeoutExc CONVERSION_TIMEOUT index)⟩
  | .renderRaises e => ⟨true, true, closeFails, .error (handleExc e index)⟩
  | .returns pdf =>
      ⟨true, true, closeFails, .ok (index.getD 0, pdf)⟩

/-- The per-job result list of `asyncio.gather(*tasks, return_exceptions=True)`
(`server.py` 270-273): one task per item of the batch, created with
`index=i` by `enumerate`, all awaited to completion, each slot holding the
task's returned pair or its raised exception.  `closeFails` is `false`: a
close failure does not change the result (proved below), so the batch model
fixes it. -/
def runBatchFrom (i : Nat) : List EngineBehavior → List ConvResult
  | [] => []
  | b :: rest =>
      (convert_html_to_pdf_bytes b false (some i)).result :: runBatchFrom (i + 1) rest

/-- The results of a whole batch, indexed from 0. -/
def runBatchResults (bs : List EngineBehavior) : List ConvResult :=
  runBatchFrom 0 bs

/-- One per-index error descriptor appended by the classification loop
(`server.py` 280-285): `{"index": i, "error": str(result), "error_type": ...}`. -/
structure BatchError where
  index : Nat
  error : String
  error_type : String
deriving Repr, DecidableEq

/-- The descriptor built at loop position `i` for exception `e`:
`error_type` is the literal `"timeout"` when `isinstance(result, TimeoutError)`,
otherwise `type(result).__name__` (`server.py` line 284). -/
def mkErr (i : Nat) (e : PyExc) : BatchError :=
  ⟨i, e.msg, if e.isTimeoutError then "timeout" else e.typeName⟩

/-- `successful_pdfs[k] = v` on a Python dict modelled as an
insertion-ordered association list: replace in place if the key is present,
else append. -/
def dictInsert (d : List (Nat × List Nat)) (k : Nat) (v : List Nat) :
    List (Nat × List Nat) :=
  if d.any (fun p => p.1 = k) then
    d.map (fun p => if p.1 = k then (k, v) else p)
  else d ++ [(k, v)]

/-- The classification loop `for i, result in enumerate(results)`
(`server.py` 279-288) with its accumulators: exceptions are appended to
`errors` as descriptors, returned pairs are stored into `successful_pdfs`
keyed by the pair's own first component (`result[0]`). -/
def classifyFrom (i : Nat) (results : List ConvResult)
    (succ : List (Nat × List Nat)) (errs : List BatchError) :
    List (Nat × List Nat) × List BatchError :=
  match results with
  | [] => (succ, errs)
  | r :: rest =>
      match r with
      | .error e => classifyFrom (i + 1) rest succ (errs ++ [mkErr i e])
      | .ok p => classifyFrom (i + 1) rest (dictInsert succ p.1 p.2) errs

/-- Classification of a full result list, starting from empty accumulators. -/
def classifyResults (results : List ConvResult) :
    List (Nat × List Nat) × List BatchError :=
  classifyFrom 0 results [] []

/-- `(success_count, error_count)` of a batch (`server.py` 290-291). -/
def batchCounts (bs : List EngineBehavior) : Nat × Nat :=
  let c := classifyResults (runBatchResults bs)
  (c.1.length, c.2.length)

/-- Insertion step of the sort used to model `sorted(successful_pdfs.keys())`
(`server.py` line 305): a stable sort of the dict entries by key. -/
def insertByKey (p : Nat × List Nat) : List (Nat × List Nat) → List (Nat × List Nat)
  | [] => [p]
  | q :: rest => if p.1 ≤ q.1 then p :: q :: rest else q :: insertByKey p rest

/-- Stable insertion sort by key; iterating `sorted(keys)` and indexing the
dict is the same as iterating the entries sorted by key (keys are unique in
a dict). -/
def sortByKey : List (Nat × List Nat) → List (Nat × List Nat)
  | [] => []
  | p :: rest => insertByKey p (sortByKey rest)

/-- The base64 alphabet of RFC 4648 used by `base64.b64encode`. -/
def b64chars : List Char :=
  "ABCDEFGHIJKLMNOPQRSTUVWXYZabcdefghijklmnopqrstuvwxyz0123456789+/".toList

/-- Character of the base64 alphabet at index `n` (0 ≤ n < 64). -/
def b64char (n : Nat) : Char := b64chars.getD n 'A'

/-- `base64.b64encode(bytes).decode("utf-8")` (`server.py` line 325):
standard base64 with `=` padding over the byte list. -/
def b64encode : List Nat → String
  | [] => ""
  | [b1] =>
      String.mk [b64char (b1 / 4), b64char (b1 % 4 * 16), '=', '=']
  | [b1, b2] =>
      String.mk [b64char (b1 / 4), b64char (b1 % 4 * 16 + b2 / 16),
        b64char (b2 % 16 * 4), '=']
  | b1 :: b2 :: b3 :: rest =>
      String.mk [b64char (b1 / 4), b64char (b1 % 4 * 16 + b2 / 16),
        b64char (b2 % 16 * 4 + b3 / 64), b64char (b3 % 64)] ++ b64encode rest

/-- The zip response of archive mode (`server.py` 300-320): the archive
entries `(name, bytes)` in the order they were written, and the response
headers outside the archive.  The `Content-Length` of the compressed blob is
not modelled (compression is external); the headers kept are
`Content-Disposition` and the conditional `X-Conversion-` counters. -/
structure ZipResponse where
  entries : List (String × List Nat)
  headers : List (String × String)
deriving Repr, DecidableEq

/-- The JSON response of inline mode (`server.py` 323-338). -/
structure JsonBatchResponse where
  success_count : Nat
  error_count : Nat
  total : Nat
  pdfs : List (Nat × String)
  errors : Option (List BatchError)
deriving Repr, DecidableEq

/-- The three possible responses of the `/convert-batch` handler after
validation. -/
inductive BatchResponse where
  /-- `HTTPException(status_code=500, detail={"message": ..., "total": ...,
  "errors": ...})` when every conversion failed (`server.py` 294-298). -/
  | failure (status : Nat) (message : String) (total : Nat) (errors : List BatchError)
  /-- Archive mode response. -/
  | zipFile (z : ZipResponse)
  /-- Inline mode response. -/
  | jsonBody (j : JsonBatchResponse)
deriving Repr, DecidableEq

/-- The caller-selected `return_format` query parameter. -/
inductive ReturnFormat where
  | zipFormat
  | jsonFormat
deriving Repr, DecidableEq

/-- The batch handler `convert_batch_html_to_pdf` (`server.py` 258-344)
after request validation, driven by the engine behavior of each job.
Mirrors the source: gather all conversions, classify, raise 500 when no
success, then package per `return_format`. -/
def convert_batch_html_to_pdf (bs : List EngineBehavior) (fmt : ReturnFormat) :
    BatchResponse :=
  let results := runBatchResults bs
  let c := classifyResults results
  let successful_pdfs := c.1
  let errors := c.2
  let success_count := successful_pdfs.length
  let error_count := errors.length
  if success_count = 0 then
    .failure 500 "All PDF conversions failed" bs.length errors
  else
    match fmt with
    | .zipFormat =>
        let entries := (sortByKey successful_pdfs).map
          (fun p => ("document_" ++ toString (p.1 + 1) ++ ".pdf", p.2))
        let headers :=
          [("Content-Disposition", "attachment; filename=documents.zip")] ++
          (if errors = [] then []
           else [("X-Conversion-Errors", toString error_count),
                 ("X-Conversion-Success", toString success_count)])
        .zipFile ⟨entries, headers⟩
    | .jsonFormat =>
        .jsonBody ⟨success_count, error_count, bs.length,
          successful_pdfs.map (fun p => (p.1, b64encode p.2)),
          if errors = [] then none else some errors⟩

/-- `not html or not html.strip()` (`server.py` line 148): the string is
empty or consists only of whitespace (stripping every whitespace character
leaves nothing). -/
def isBlank (s : String) : Bool := s.data.all Char.isWhitespace

/-- The `validate_html_items` field validator of `BatchHTMLRequest`
(`server.py` 144-152): walk the list with its index; reject the first item
that is empty/whitespace-only or oversized, returning the validation
message; accept otherwise. -/
def validate_html_items (i : Nat) : List String → Option String
  | [] => none
  | h :: rest =>
      if isBlank h then
        some ("HTML content at index " ++ toString i ++ " is empty")
      else if h.utf8ByteSize > MAX_HTML_SIZE then
        some ("HTML content at index " ++ toString i ++
          " exceeds maximum size of " ++ toString MAX_HTML_SIZE ++ " bytes")
      else validate_html_items (i + 1) rest

/-- Request validation of `BatchHTMLRequest` (`server.py` 132-152):
`validate_batch_size` (non-empty, at most `MAX_BATCH_SIZE`) then
`validate_html_items`.  Returns the first validation message, or `none`
when the request is accepted. -/
def validate_batch_request (v : List String) : Option String :=
  if v.length = 0 then some "HTML list cannot be empty"
  else if v.length > MAX_BATCH_SIZE then
    some ("Batch size exceeds maximum of " ++ toString MAX_BATCH_SIZE ++ " items")
  else validate_html_items 0 v

/-- Validation of the `html` field of `HTMLRequest` (`server.py` 116-122):
`min_length=1` plus the UTF-8 size bound of `validate_html_size`.  There is
no emptiness/whitespace check beyond `min_length=1`. -/
def validate_html_field (html : String) : Option String :=
  if html.length < 1 then some "String should have at least 1 character"
  else if html.utf8ByteSize > MAX_HTML_SIZE then
    some ("HTML content exceeds maximum size of " ++ toString MAX_HTML_SIZE ++ " bytes")
  else none

/-- Response of the `POST /convert` pipeline.  A pydantic validation
failure is returned by FastAPI (and by the custom
`validation_exception_handler`, `server.py` 91-109) with status 422. -/
inductive SingleResponse where
  | validationError (status : Nat) (msg : String)
  /-- `Response(content=..., media_type=..., headers=...)`
  (`server.py` 226-233). -/
  | pdfFile (status : Nat) (body : List Nat) (mediaType : String)
      (contentDisposition : String) (contentLength : String)
  /-- `HTTPException` raised by `_handle_conversion` (`server.py` 241-248). -/
  | httpError (status : Nat) (detail : String)
deriving Repr, DecidableEq

/-- HTTP status of a `SingleResponse`. -/
def SingleResponse.status : SingleResponse → Nat
  | .validationError s _ => s
  | .pdfFile s _ _ _ _ => s
  | .httpError s _ => s

/-- The `POST /convert` endpoint (`server.py` 250-252): pydantic validation
of `HTMLRequest`, then `_handle_conversion` → `_convert_html_to_pdf` →
`_convert_html_to_pdf_bytes` with `index=None`.  A raised builtin
`TimeoutError` maps to 504 with `str(e)`; any other exception maps to 500
with the wrapping message (`server.py` 243-248); success returns 200 with
the `application/pdf` body and headers (`server.py` 226-233). -/
def convert_endpoint (html : String) (b : EngineBehavior) : SingleResponse :=
  match validate_html_field html with
  | some m => .validationError 422 m
  | none =>
      match (convert_html_to_pdf_bytes b false none).result with
      | .ok p =>
          .pdfFile 200 p.2 "application/pdf" "attachment; filename=document.pdf"
            (toString p.2.length)
      | .error e =>
          if e.isTimeoutError then .httpError 504 e.msg
          else .httpError 500 ("Failed to convert HTML to PDF: " ++ e.msg)

/-- Response of the `POST /convert-batch` pipeline including request
validation. -/
inductive BatchEndpointResponse where
  | validationError (status : Nat) (msg : String)
  | handled (r : BatchResponse)
deriving Repr, DecidableEq

/-- The `POST /convert-batch` endpoint: pydantic validation of
`BatchHTMLRequest` (422 on failure), then the batch handler.  The engine
behaviors `bs` drive the conversion of the correspondingly indexed items of
`html_list` (the HTML text itself is consumed by the external engine). -/
def convert_batch_endpoint (html_list : List String) (bs : List EngineBehavior)
    (fmt : ReturnFormat) : BatchEndpointResponse :=
  match validate_batch_request html_list with
  | some m => .validationError 422 m
  | none => .handled (convert_batch_html_to_pdf bs fmt)

/-- A Python value stored in an options dict.  `vnum` carries numbers
opaquely (the `scale` value `1.0` is represented as `vnum 1`); `vdict`
carries the string-valued `margin` dict.  Only truthiness and identity of
these values matter to `_build_pdf_options`, which copies them unchanged. -/
inductive PyVal where
  | vstr (s : String)
  | vbool (b : Bool)
  | vnum (n : Int)
  | vdict (entries : List (String × String))
deriving Repr, DecidableEq

/-- Python truthiness of a `PyVal`. -/
def truthy : PyVal → Bool
  | .vstr s => s ≠ ""
  | .vbool b => b
  | .vnum n => n ≠ 0
  | .vdict d => d ≠ []

/-- Truthiness of `pdf_options.get("landscape")`: `None` is falsy. -/
def truthyOpt : Option PyVal → Bool
  | none => false
  | some v => truthy v

/-- `DEFAULT_PDF_OPTIONS` (`server.py` 36-42). -/
def DEFAULT_PDF_OPTIONS : List (String × PyVal) :=
  [("format", .vstr "A4"),
   ("margin", .vdict [("top", "2cm"), ("right", "2cm"), ("bottom", "2cm"), ("left", "2cm")]),
   ("print_background", .vbool true),
   ("landscape", .vbool false),
   ("scale", .vnum 1)]

/-- `_build_pdf_options` (`server.py` 176-188 / `helper.py` 108-121): reads
the four mandatory keys with `pdf_options[...]` (modelled as `none` on a
`KeyError`), adds the three fixed header/footer entries, and appends
`landscape: True` exactly when `pdf_options.get("landscape")` is truthy. -/
def build_pdf_options (pdf_options : List (String × PyVal)) :
    Option (List (String × PyVal)) :=
  match pdf_options.lookup "format", pdf_options.lookup "margin",
      pdf_options.lookup "print_background", pdf_options.lookup "scale" with
  | some vf, some vm, some vpb, some vsc =>
      let options :=
        [("format", vf), ("margin", vm), ("print_background", vpb),
         ("scale", vsc), ("display_header_footer", PyVal.vbool true),
         ("header_template", PyVal.vstr "<div></div>"),
         ("footer_template", PyVal.vstr FOOTER_TEMPLATE)]
      some (if truthyOpt (pdf_options.lookup "landscape") then
              options ++ [("landscape", PyVal.vbool true)]
            else options)
  | _, _, _, _ => none

/-- Program counter of one caller of `_get_browser` (`server.py` 164-174 /
`helper.py` 68-79).  The await points of the coroutine delimit its atomic
steps: the optimistic validity check before the lock, the lock acquisition,
and the second check plus (re)creation under the lock. -/
inductive CallerPC where
  /-- About to run the optimistic check `_browser is None or not
  _browser.is_connected()`. -/
  | start
  /-- Optimistic check found no valid handle; suspended on
  `async with _browser_lock`. -/
  | waitLock
  /-- Holds the lock; about to run the second check and possibly create. -/
  | locked
  /-- Returned from `_get_browser`. -/
  | done
deriving Repr, DecidableEq

/-- Process-wide state shared by the callers of `_get_browser`: the cached
handle `_browser` (numbered by creation), the owner of `_browser_lock`, the
number of engine connections created so far, and each caller's program
counter.  The claim's scenario — no live handle exists and none is
invalidated — is modelled by starting from `browser = none` and having no
disconnection transition, so a cached handle stays valid. -/
structure BrowserState where
  browser : Option Nat
  lockOwner : Option Nat
  creations : Nat
  pcs : List CallerPC
deriving Repr, DecidableEq

/-- Interleaved execution of the callers: one atomic step of caller `i`.
Out-of-range callers read `CallerPC.done` and cannot step. -/
inductive BrowserStep : BrowserState → BrowserState → Prop where
  /-- The optimistic check finds a valid handle: return it, skipping the
  lock and creation. -/
  | checkValid (s : BrowserState) (i : Nat) :
      s.pcs.getD i .done = .start → s.browser.isSome = true →
      BrowserStep s { s with pcs := s.pcs.set i .done }
  /-- The optimistic check finds no valid handle: proceed to the lock. -/
  | checkInvalid (s : BrowserState) (i : Nat) :
      s.pcs.getD i .done = .start → s.browser = none →
      BrowserStep s { s with pcs := s.pcs.set i .waitLock }
  /-- `async with _browser_lock` resumes when the lock is free. -/
  | acquire (s : BrowserState) (i : Nat) :
      s.pcs.getD i .done = .waitLock → s.lockOwner = none →
      BrowserStep s { s with lockOwner := some i, pcs := s.pcs.set i .locked }
  /-- The second check, under the lock, finds a valid handle: release the
  lock and return without creating. -/
  | skipCreate (s : BrowserState) (i : Nat) :
      s.pcs.getD i .done = .locked → s.lockOwner = some i →
      s.browser.isSome = true →
      BrowserStep s { s with lockOwner := none, pcs := s.pcs.set i .done }
  /-- The second check still finds no valid handle: launch a new engine
  connection, cache it, release the lock and return.  The launch happens
  while the lock is held, so it is one atomic step with respect to the
  other callers of this critical section. -/
  | create (s : BrowserState) (i : Nat) :
      s.pcs.getD i .done = .locked → s.lockOwner = some i →
      s.browser = none →
      BrowserStep s ⟨some s.creations, none, s.creations + 1, s.pcs.set i .done⟩

/-- Initial state for `n` concurrent callers of `_get_browser` when no live
handle exists yet. -/
def initBrowserState (n : Nat) : BrowserState :=
  ⟨none, none, 0, List.replicate n .start⟩

/-- Reachability under interleaved caller steps. -/
def BrowserReach (n : Nat) (s : BrowserState) : Prop :=
  Relation.ReflTransGen BrowserStep (initBrowserState n) s

/-! ## Characterization of the batch classification loop -/

/-- Successful `(index, pdf)` pairs of a result list whose first slot sits
at loop position `i`, in loop order. -/
def oksFrom : Nat → List ConvResult → List (Nat × List Nat)
  | _, [] => []
  | i, .error _ :: rest => oksFrom (i + 1) rest
  | i, .ok p :: rest => p :: oksFrom (i + 1) rest

/-- Error descriptors of a result list whose first slot sits at loop
position `i`, in loop order. -/
def errsFrom : Nat → List ConvResult → List BatchError
  | _, [] => []
  | i, .error e :: rest => mkErr i e :: errsFrom (i + 1) rest
  | i, .ok _ :: rest => errsFrom (i + 1) rest

/-- Every successful slot of the list carries its own position as its key:
the slot at offset `k` from position `i`, if `.ok p`, has `p.1 = i + k`. -/
def OkKeysFrom : Nat → List ConvResult → Prop
  | _, [] => True
  | i, r :: rest =>
      (∀ p : Nat × List Nat, r = .ok p → p.1 = i) ∧ OkKeysFrom (i + 1) rest

lemma okKeysFrom_runBatchFrom (bs : List EngineBehavior) (i : Nat) :
    OkKeysFrom i (runBatchFrom i bs) := by
  induction bs generalizing i with
  | nil => trivial
  | cons b rest ih =>
    refine ⟨?_, ih (i + 1)⟩
    intro p hp
    cases b <;> simp [convert_html_to_pdf_bytes] at hp
    exact (congrArg Prod.fst hp.symm)

lemma runBatchFrom_length (bs : List EngineBehavior) (i : Nat) :
    (runBatchFrom i bs).length = bs.length := by
  induction bs generalizing i with
  | nil => rfl
  | cons b rest ih => simp [runBatchFrom, ih]

lemma runBatchFrom_getD (bs : List EngineBehavior) (k j : Nat) (hj : j < bs.length) :
    (runBatchFrom k bs).getD j (.error ⟨"", "", false⟩) =
      (convert_html_to_pdf_bytes (bs.getD j .loadHangs) false (some (k + j))).result := by
  induction bs generalizing k j with
  | nil => simp at hj
  | cons b rest ih =>
    cases j with
    | zero => simp [runBatchFrom]
    | succ j =>
      have hj2 : j < rest.length := by simpa using hj
      have hk : k + 1 + j = k + (j + 1) := by omega
      simp only [runBatchFrom, List.getD_cons_succ]
      rw [ih (k + 1) j hj2, hk]

lemma dictInsert_fresh (d : List (Nat × List Nat)) (k : Nat) (v : List Nat)
    (h : ∀ p ∈ d, p.1 ≠ k) : dictInsert d k v = d ++ [(k, v)] := by
  unfold dictInsert
  rw [if_neg]
  simp only [List.any_eq_true, decide_eq_true_eq, not_exists, not_and]
  intro p hp
  exact h p hp

lemma classifyFrom_eq (results : List ConvResult) (i : Nat)
    (succ : List (Nat × List Nat)) (errs : List BatchError)
    (hk : OkKeysFrom i results) (hs : ∀ p ∈ succ, p.1 < i) :
    classifyFrom i results succ errs =
      (succ ++ oksFrom i results, errs ++ errsFrom i results) := by
  induction results generalizing i succ errs with
  | nil => simp [classifyFrom, oksFrom, errsFrom]
  | cons r rest ih =>
    obtain ⟨h1, h2⟩ := hk
    cases r with
    | error e =>
      rw [classifyFrom, ih (i + 1) succ (errs ++ [mkErr i e]) h2
        (fun p hp => Nat.lt_succ_of_lt (hs p hp))]
      simp [oksFrom, errsFrom]
    | ok p =>
      have hpi : p.1 = i := h1 p rfl
      have hfresh : ∀ q ∈ succ, q.1 ≠ p.1 := by
        intro q hq
        have := hs q hq
        omega
      have hs2 : ∀ q ∈ succ ++ [(p.1, p.2)], q.1 < i + 1 := by
        intro q hq
        rcases List.mem_append.mp hq with hq | hq
        · exact Nat.lt_succ_of_lt (hs q hq)
        · simp at hq
          subst hq
          omega
      rw [classifyFrom, dictInsert_fresh succ p.1 p.2 hfresh,
        ih (i + 1) (succ ++ [(p.1, p.2)]) errs h2 hs2]
      simp [oksFrom, errsFrom]

lemma classifyResults_runBatch (bs : List EngineBehavior) :
    classifyResults (runBatchResults bs) =
      (oksFrom 0 (runBatchResults bs), errsFrom 0 (runBatchResults bs)) := by
  have h := classifyFrom_eq (runBatchResults bs) 0 [] []
    (okKeysFrom_runBatchFrom bs 0) (by simp)
  simpa [classifyResults] using h

lemma oks_errs_length (results : List ConvResult) (i : Nat) :
    (oksFrom i results).length + (errsFrom i results).length = results.length := by
  induction results generalizing i with
  | nil => rfl
  | cons r rest ih =>
    have h := ih (i + 1)
    cases r with
    | error e => simp [oksFrom, errsFrom]; omega
    | ok p => simp [oksFrom, errsFrom]; omega

lemma oksFrom_keys_ge (results : List ConvResult) (i : Nat)
    (hk : OkKeysFrom i results) : ∀ p ∈ oksFrom i results, i ≤ p.1 := by
  induction results generalizing i with
  | nil => intro p hp; simp [oksFrom] at hp
  | cons r rest ih =>
    obtain ⟨h1, h2⟩ := hk
    intro p hp
    cases r with
    | error e => exact Nat.le_of_succ_le (ih (i + 1) h2 p hp)
    | ok q =>
      rcases List.mem_cons.mp hp with hp | hp
      · subst hp
        exact Nat.le_of_eq (h1 p rfl).symm
      · exact Nat.le_of_succ_le (ih (i + 1) h2 p hp)

lemma oksFrom_keys_sorted (results : List ConvResult) (i : Nat)
    (hk : OkKeysFrom i results) :
    List.Pairwise (fun p q : Nat × List Nat => p.1 < q.1) (oksFrom i results) := by
  induction results generalizing i with
  | nil => simp [oksFrom]
  | cons r rest ih =>
    obtain ⟨h1, h2⟩ := hk
    cases r with
    | error e => exact ih (i + 1) h2
    | ok q =>
      refine List.pairwise_cons.mpr ⟨?_, ih (i + 1) h2⟩
      intro p hp
      have := oksFrom_keys_ge rest (i + 1) h2 p hp
      have := h1 q rfl
      omega

lemma errsFrom_index_ge (results : List ConvResult) (i : Nat) :
    ∀ d ∈ errsFrom i results, i ≤ d.index := by
  induction results generalizing i with
  | nil => intro d hd; simp [errsFrom] at hd
  | cons r rest ih =>
    intro d hd
    cases r with
    | ok q => exact Nat.le_of_succ_le (ih (i + 1) d hd)
    | error e =>
      rcases List.mem_cons.mp hd with hd | hd
      · subst hd
        exact Nat.le_refl i
      · exact Nat.le_of_succ_le (ih (i + 1) d hd)

lemma errsFrom_sorted (results : List ConvResult) (i : Nat) :
    List.Pairwise (fun a b : BatchError => a.index < b.index) (errsFrom i results) := by
  induction results generalizing i with
  | nil => simp [errsFrom]
  | cons r rest ih =>
    cases r with
    | ok q => exact ih (i + 1)
    | error e =>
      refine List.pairwise_cons.mpr ⟨?_, ih (i + 1)⟩
      intro d hd
      have := errsFrom_index_ge rest (i + 1) d hd
      simp [mkErr]
      omega

lemma indices_perm (results : List ConvResult) (i : Nat)
    (hk : OkKeysFrom i results) :
    ((oksFrom i results).map Prod.fst ++ (errsFrom i results).map BatchError.index).Perm
      (List.range' i results.length) := by
  induction results generalizing i with
  | nil => simp [oksFrom, errsFrom]
  | cons r rest ih =>
    obtain ⟨h1, h2⟩ := hk
    cases r with
    | ok p =>
      have hpi : p.1 = i := h1 p rfl
      simp only [oksFrom, List.map_cons, List.cons_append, List.length_cons,
        List.range'_succ]
      rw [hpi]
      exact (ih (i + 1) h2).cons i
    | error e =>
      simp only [oksFrom, errsFrom, List.map_cons, List.length_cons,
        List.range'_succ]
      exact List.perm_middle.trans ((ih (i + 1) h2).cons i)

lemma insertByKey_of_le_all (p : Nat × List Nat) (l : List (Nat × List Nat))
    (h : ∀ q ∈ l, p.1 ≤ q.1) : insertByKey p l = p :: l := by
  cases l with
  | nil => rfl
  | cons q rest =>
    simp [insertByKey, h q (List.mem_cons_self q rest)]

lemma sortByKey_of_sorted (l : List (Nat × List Nat))
    (h : List.Pairwise (fun p q : Nat × List Nat => p.1 < q.1) l) :
    sortByKey l = l := by
  induction l with
  | nil => rfl
  | cons p rest ih =>
    obtain ⟨h1, h2⟩ := List.pairwise_cons.mp h
    rw [sortByKey, ih h2,
      insertByKey_of_le_all p rest (fun q hq => Nat.le_of_lt (h1 q hq))]

/-! ## Invariants of the browser acquisition state machine -/

/-- Invariant of the acquisition scenario: while no handle is cached no
connection has been created and no caller has returned; once a handle is
cached exactly one connection has been created. -/
def BrowserInv (s : BrowserState) : Prop :=
  (s.browser = none → s.creations = 0 ∧ ∀ p ∈ s.pcs, p ≠ CallerPC.done) ∧
  (s.browser.isSome = true → s.creations = 1)

lemma browserStep_inv {s t : BrowserState} (h : BrowserStep s t)
    (hs : BrowserInv s) : BrowserInv t := by
  obtain ⟨hnone, hsome⟩ := hs
  cases h with
  | checkValid i hpc hb =>
    refine ⟨?_, fun _ => hsome hb⟩
    intro hb2
    simp at hb2
    rw [hb2] at hb
    simp at hb
  | checkInvalid i hpc hb =>
    refine ⟨?_, ?_⟩
    · intro hb2
      obtain ⟨hc, hp⟩ := hnone hb
      refine ⟨hc, ?_⟩
      intro p hp2
      rcases List.mem_or_eq_of_mem_set hp2 with hp3 | hp3
      · exact hp p hp3
      · subst hp3
        simp
    · intro hb2
      exact hsome hb2
  | acquire i hpc hl =>
    refine ⟨?_, ?_⟩
    · intro hb2
      simp at hb2
      obtain ⟨hc, hp⟩ := hnone hb2
      refine ⟨hc, ?_⟩
      intro p hp2
      rcases List.mem_or_eq_of_mem_set hp2 with hp3 | hp3
      · exact hp p hp3
      · subst hp3
        simp
    · intro hb2
      exact hsome hb2
  | skipCreate i hpc hl hb =>
    refine ⟨?_, fun _ => hsome hb⟩
    intro hb2
    simp at hb2
    rw [hb2] at hb
    simp at hb
  | create i hpc hl hb =>
    refine ⟨?_, ?_⟩
    · intro hb2
      simp at hb2
    · intro _
      obtain ⟨hc, _⟩ := hnone hb
      simp [hc]

lemma browserStep_pcs_length {s t : BrowserState} (h : BrowserStep s t) :
    t.pcs.length = s.pcs.length := by
  cases h <;> simp

lemma browserReach_inv (n : Nat) (s : BrowserState) (h : BrowserReach n s) :
    BrowserInv s ∧ s.pcs.length = n := by
  induction h with
  | refl =>
    refine ⟨⟨fun _ => ⟨rfl, ?_⟩, fun hb => by simp [initBrowserState] at hb⟩, by
      simp [initBrowserState]⟩
    intro p hp
    have := List.eq_of_mem_replicate hp
    subst this
    simp
  | tail _ hstep ih =>
    exact ⟨browserStep_inv hstep ih.1, (browserStep_pcs_length hstep).trans ih.2⟩

/-! ## Claims -/

/-- C1: for every batch run the produced outcome satisfies
`success_count + failure_count = total` with `total` the number of jobs,
and whenever `success_count = 0` the handler returns the whole-batch
HTTP 500 failure carrying the total and the per-index error descriptors
instead of a partial-success response. -/
theorem c1_batch_outcome_invariant (bs : List EngineBehavior) (fmt : ReturnFormat) :
    (batchCounts bs).1 + (batchCounts bs).2 = bs.length
    ∧ ((batchCounts bs).1 = 0 →
        convert_batch_html_to_pdf bs fmt =
          .failure 500 "All PDF conversions failed" bs.length
            (classifyResults (runBatchResults bs)).2) := by
  have hc := classifyResults_runBatch bs
  constructor
  · have h1 : (batchCounts bs).1 = (oksFrom 0 (runBatchResults bs)).length := by
      simp [batchCounts, hc]
    have h2 : (batchCounts bs).2 = (errsFrom 0 (runBatchResults bs)).length := by
      simp [batchCounts, hc]
    rw [h1, h2, oks_errs_length]
    simpa [runBatchResults] using runBatchFrom_length bs 0
  · intro h0
    have h0s : (classifyResults (runBatchResults bs)).1.length = 0 := by
      simpa [batchCounts] using h0
    simp [convert_batch_html_to_pdf, h0s]

/-- C1 witness: a one-job batch whose only conversion fails has counts
`(0, 1)` and yields the whole-batch 500 failure. -/
theorem c1_batch_outcome_invariant_witness :
    convert_batch_html_to_pdf [.renderRaises ⟨"Exception", "boom", false⟩] .zipFormat =
      .failure 500 "All PDF conversions failed" 1 [⟨0, "boom", "Exception"⟩] := by
  have h := (c1_batch_outcome_invariant [.renderRaises ⟨"Exception", "boom", false⟩]
    .zipFormat).2 (by decide)
  simpa using h

/-- C2: the orchestrator runs one conversion per job with its index from
`0..N-1`, waits for every one of them (the result list has one slot per
job), each slot's outcome is a function of that job's behavior alone
(failures are captured and never abort siblings), and the classified
outcome holds exactly one entry — success or failure descriptor — per
index: success keys and failure indices together are a permutation of
`0..N-1`. -/
theorem c2_fanout_fanin (bs : List EngineBehavior) :
    (runBatchResults bs).length = bs.length
    ∧ (∀ j, j < bs.length →
        (runBatchResults bs).getD j (.error ⟨"", "", false⟩) =
          (convert_html_to_pdf_bytes (bs.getD j .loadHangs) false (some j)).result)
    ∧ ((classifyResults (runBatchResults bs)).1.map Prod.fst ++
        (classifyResults (runBatchResults bs)).2.map BatchError.index).Perm
        (List.range bs.length) := by
  refine ⟨by simpa [runBatchResults] using runBatchFrom_length bs 0, ?_, ?_⟩
  · intro j hj
    simpa [runBatchResults] using runBatchFrom_getD bs 0 j hj
  · rw [classifyResults_runBatch bs, List.range_eq_range']
    have h := indices_perm (runBatchResults bs) 0 (okKeysFrom_runBatchFrom bs 0)
    have hl : (runBatchResults bs).length = bs.length := by
      simpa [runBatchResults] using runBatchFrom_length bs 0
    rw [hl] at h
    exact h

/-- C2 witness: in a two-job batch where job 0 succeeds and job 1 fails,
the slot of job 1 is exactly the outcome of its own conversion at index 1. -/
theorem c2_fanout_fanin_witness :
    (runBatchResults [.returns [5], .loadHangs]).getD 1 (.error ⟨"", "", false⟩) =
      (convert_html_to_pdf_bytes .loadHangs false (some 1)).result :=
  (c2_fanout_fanin [.returns [5], .loadHangs]).2.1 1 (by decide)

/-- C9: on every exit path of a single conversion the page that was opened
is released (`closeAttempted` coincides with `pageOpened`), and a failure
of the release is logged and swallowed: it never changes the primary
result, which is identical whether or not `page.close()` fails. -/
theorem c9_page_release (b : EngineBehavior) (closeFails : Bool) (index : Option Nat) :
    (convert_html_to_pdf_bytes b closeFails index).closeAttempted
        = (convert_html_to_pdf_bytes b closeFails index).pageOpened
    ∧ (convert_html_to_pdf_bytes b closeFails index).result
        = (convert_html_to_pdf_bytes b false index).result
    ∧ (convert_html_to_pdf_bytes b closeFails index).closeFailureLogged
        = ((convert_html_to_pdf_bytes b closeFails index).pageOpened && closeFails) := by
  cases b <;> simp [convert_html_to_pdf_bytes]

/-- The engine's own context-level timeout exception: when the per-context
load timeout set by `page.set_default_timeout(BROWSER_TIMEOUT * 1000)`
elapses first, `set_content` raises playwright's `TimeoutError`.  That
class subclasses playwright's `Error` (a direct `Exception` subclass), not
the builtin `TimeoutError`, so it is not an instance of the builtin
`TimeoutError` tested by `except asyncio.TimeoutError` and
`isinstance(result, TimeoutError)`. -/
def playwrightTimeoutExc : PyExc :=
  ⟨"TimeoutError", "Timeout 30000ms exceeded.", false⟩

/-- C3 counterexample: a conversion in which the shorter per-context load
timeout elapses first is NOT classified as a timeout by the code.  The
engine's context-timeout exception is re-raised unchanged by
`except Exception: raise`; the batch classifier records its dynamic type
name (not the literal `"timeout"`), and the single-request path returns
500, not 504. -/
theorem c3_counterexample :
    (classifyResults (runBatchResults [.loadRaises playwrightTimeoutExc])).2 =
      [⟨0, "Timeout 30000ms exceeded.", "TimeoutError"⟩]
    ∧ ((classifyResults (runBatchResults [.loadRaises playwrightTimeoutExc])).2.map
        BatchError.error_type ≠ ["timeout"])
    ∧ (convert_endpoint "<p>slow</p>" (.loadRaises playwrightTimeoutExc)).status = 500
    ∧ ¬ (convert_endpoint "<p>slow</p>" (.loadRaises playwrightTimeoutExc)).status = 504 := by
  decide

/-- C3 (amended): both timeout scopes are enforced in the model (the
per-context load bound inside the engine step, the overall
`CONVERSION_TIMEOUT` bound on each awaited step), but only an elapsed
overall bound — or an engine exception that is an instance of the builtin
`TimeoutError` — is converted into the code's `TimeoutError`, which carries
the configured `CONVERSION_TIMEOUT` value and the job's index in its
message, is recorded with error kind `"timeout"` by the batch classifier,
and maps to HTTP 504 on the single-request path.  Any other engine error
(including a context-level timeout exception that is not a builtin
`TimeoutError` instance) propagates unchanged: the batch classifier records
its message and type name and the single path maps it to HTTP 500. -/
theorem c3_timeout_classification (index : Option Nat) (e : PyExc) (i : Nat) :
    ((convert_html_to_pdf_bytes .loadHangs false index).result
        = .error (timeoutExc CONVERSION_TIMEOUT index)
      ∧ (convert_html_to_pdf_bytes .renderHangs false index).result
        = .error (timeoutExc CONVERSION_TIMEOUT index))
    ∧ (timeoutExc CONVERSION_TIMEOUT (some i)).msg
        = "Conversion timeout after " ++ toString CONVERSION_TIMEOUT ++ "s" ++
            (" for item at index " ++ toString i)
    ∧ (mkErr i (timeoutExc CONVERSION_TIMEOUT (some i))).error_type = "timeout"
    ∧ (e.isTimeoutError = true →
        (convert_html_to_pdf_bytes (.loadRaises e) false index).result
          = .error (timeoutExc CONVERSION_TIMEOUT index)
        ∧ (convert_endpoint "<p>x</p>" (.loadRaises e)).status = 504)
    ∧ (e.isTimeoutError = false →
        (convert_html_to_pdf_bytes (.loadRaises e) false index).result = .error e
        ∧ (mkErr i e).error = e.msg
        ∧ (mkErr i e).error_type = e.typeName
        ∧ (convert_endpoint "<p>x</p>" (.loadRaises e)).status = 500) := by
  have hval : validate_html_field "<p>x</p>" = none := by decide
  refine ⟨⟨rfl, rfl⟩, rfl, rfl, ?_, ?_⟩
  · intro he
    constructor
    · simp [convert_html_to_pdf_bytes, handleExc, he]
    · simp [convert_endpoint, hval, convert_html_to_pdf_bytes, handleExc, he,
        timeoutExc, SingleResponse.status]
  · intro he
    refine ⟨by simp [convert_html_to_pdf_bytes, handleExc, he], rfl, ?_, ?_⟩
    · simp [mkErr, he]
    · simp [convert_endpoint, hval, convert_html_to_pdf_bytes, handleExc, he,
        SingleResponse.status]

/-- C3 witness: an overall-bound timeout at index 1 is classified
`"timeout"`, and a non-builtin-`TimeoutError` engine failure propagates
with its own message and maps to 500. -/
theorem c3_timeout_classification_witness :
    (convert_html_to_pdf_bytes (.loadRaises ⟨"Error", "net fail", false⟩) false
        (some 1)).result = .error ⟨"Error", "net fail", false⟩
    ∧ (convert_endpoint "<p>x</p>" (.loadRaises ⟨"Error", "net fail", false⟩)).status = 500
    ∧ (mkErr 1 (timeoutExc CONVERSION_TIMEOUT (some 1))).error_type = "timeout" := by
  have h := c3_timeout_classification (some 1) ⟨"Error", "net fail", false⟩ 1
  have h5 := h.2.2.2.2 rfl
  exact ⟨h5.1, h5.2.2.2, h.2.2.1⟩

/-- C4: for a batch with at least one success, archive mode produces one
entry per successful result, named `document_<index+1>.pdf` from the 0-based
original index, in ascending index order (the success list is strictly
sorted by key and the entries are its image); the `X-Conversion-` counters
are attached as headers exactly when failures occurred, so they are absent
when all jobs succeed. -/
theorem c4_zip_packaging (bs : List EngineBehavior)
    (h : (classifyResults (runBatchResults bs)).1.length ≠ 0) :
    convert_batch_html_to_pdf bs .zipFormat =
      .zipFile ⟨(classifyResults (runBatchResults bs)).1.map
          (fun p => ("document_" ++ toString (p.1 + 1) ++ ".pdf", p.2)),
        [("Content-Disposition", "attachment; filename=documents.zip")] ++
          (if (classifyResults (runBatchResults bs)).2 = [] then []
           else [("X-Conversion-Errors",
                    toString (classifyResults (runBatchResults bs)).2.length),
                 ("X-Conversion-Success",
                    toString (classifyResults (runBatchResults bs)).1.length)])⟩
    ∧ List.Pairwise (fun p q : Nat × List Nat => p.1 < q.1)
        (classifyResults (runBatchResults bs)).1
    ∧ ((classifyResults (runBatchResults bs)).2 = [] ↔ (batchCounts bs).2 = 0) := by
  have hsorted : List.Pairwise (fun p q : Nat × List Nat => p.1 < q.1)
      (classifyResults (runBatchResults bs)).1 := by
    rw [classifyResults_runBatch bs]
    exact oksFrom_keys_sorted _ 0 (okKeysFrom_runBatchFrom bs 0)
  have hsort := sortByKey_of_sorted _ hsorted
  refine ⟨?_, hsorted, ?_⟩
  · simp [convert_batch_html_to_pdf, h, hsort]
  · simp [batchCounts, List.length_eq_zero]

/-- C4 witness: a three-job batch with a failure at index 1 packages the
two successes as `document_1.pdf` and `document_3.pdf` with both counters
attached. -/
theorem c4_zip_packaging_witness :
    convert_batch_html_to_pdf [.returns [1, 2], .loadHangs, .returns [9]] .zipFormat =
      .zipFile ⟨[("document_1.pdf", [1, 2]), ("document_3.pdf", [9])],
        [("Content-Disposition", "attachment; filename=documents.zip"),
         ("X-Conversion-Errors", "1"), ("X-Conversion-Success", "2")]⟩ := by
  rw [(c4_zip_packaging [.returns [1, 2], .loadHangs, .returns [9]] (by decide)).1]
  decide

/-- C5 counterexample: `POST /convert` with empty `html` is rejected by
schema validation with status 422, not 400, and whitespace-only `html`
passes validation entirely (it converts and returns 200 when the engine
succeeds) — so neither case produces the claimed 400. -/
theorem c5_counterexample :
    convert_endpoint "" (.returns [37, 80]) =
      .validationError 422 "String should have at least 1 character"
    ∧ ¬ (convert_endpoint "" (.returns [37, 80])).status = 400
    ∧ (convert_endpoint " " (.returns [37, 80])).status = 200
    ∧ ¬ (convert_endpoint " " (.returns [37, 80])).status = 400 := by
  decide

/-- C5 (amended): for `POST /convert`, empty `html` fails the schema's
`min_length=1` and yields 422 (there is no whitespace-only check, so any
non-empty `html` within the size bound reaches conversion); a conversion
failure that is a builtin `TimeoutError` instance yields 504 with the
timeout message; any other conversion failure yields 500 with the wrapping
message; success yields 200 with the `application/pdf` body, the
`Content-Disposition: attachment; filename=document.pdf` header, and
`Content-Length` equal to the byte count. -/
theorem c5_single_endpoint (html : String) (b : EngineBehavior) :
    (html = "" → convert_endpoint html b =
      .validationError 422 "String should have at least 1 character")
    ∧ (html ≠ "" → html.utf8ByteSize ≤ MAX_HTML_SIZE →
        ((∀ p : Nat × List Nat,
            (convert_html_to_pdf_bytes b false none).result = .ok p →
            convert_endpoint html b =
              .pdfFile 200 p.2 "application/pdf"
                "attachment; filename=document.pdf" (toString p.2.length))
         ∧ (∀ e : PyExc,
            (convert_html_to_pdf_bytes b false none).result = .error e →
            (e.isTimeoutError = true →
              convert_endpoint html b = .httpError 504 e.msg)
            ∧ (e.isTimeoutError = false →
              convert_endpoint html b =
                .httpError 500 ("Failed to convert HTML to PDF: " ++ e.msg))))) := by
  constructor
  · intro he
    subst he
    rfl
  · intro hne hsize
    have hlen : ¬ html.length < 1 := by
      have hlz : html.length ≠ 0 := by
        intro h0
        apply hne
        cases html with
        | mk data =>
          have hd : data = [] := List.length_eq_zero.mp h0
          simp [hd]
      omega
    have hval : validate_html_field html = none := by
      simp [validate_html_field, hlen, Nat.not_lt.mpr hsize, Nat.not_lt_of_le]
    constructor
    · intro p hp
      simp [convert_endpoint, hval, hp]
    · intro e hee
      constructor <;> intro hflag <;> simp [convert_endpoint, hval, hee, hflag]

/-- C5 witness: a valid input converted successfully returns the full 200
PDF response. -/
theorem c5_single_endpoint_witness :
    convert_endpoint "<p>Hello</p>" (.returns [1, 2, 3]) =
      .pdfFile 200 [1, 2, 3] "application/pdf"
        "attachment; filename=document.pdf" "3" := by
  have h := ((c5_single_endpoint "<p>Hello</p>" (.returns [1, 2, 3])).2
    (by decide) (by decide)).1 (0, [1, 2, 3]) rfl
  simpa using h

/-- C6 counterexample: the batch `["<p>A</p>", "", "<p>B</p>"]` never
reaches conversion: the `validate_html_items` validator rejects the empty
item at index 1 and the request fails with a 422 validation error, so no
batch outcome (2 successes, 1 timeout) and no archive are produced. -/
theorem c6_counterexample :
    convert_batch_endpoint ["<p>A</p>", "", "<p>B</p>"]
        [.returns [4], .loadHangs, .returns [7]] .zipFormat =
      .validationError 422 "HTML content at index 1 is empty" := by
  decide

/-- C6 (amended): the batch `["<p>A</p>", "", "<p>B</p>"]` is rejected by
request validation (empty item at index 1) before any conversion; for a
batch of three non-blank documents whose middle job exceeds the load
timeout's overall bound, the outcome is 2 successes and 1 failure of kind
`"timeout"`, and archive mode yields exactly `document_1.pdf` and
`document_3.pdf`. -/
theorem c6_batch_scenario :
    validate_batch_request ["<p>A</p>", "", "<p>B</p>"] =
      some "HTML content at index 1 is empty"
    ∧ validate_batch_request ["<p>A</p>", "<p>X</p>", "<p>B</p>"] = none
    ∧ batchCounts [.returns [4], .loadHangs, .returns [7]] = (2, 1)
    ∧ (classifyResults (runBatchResults [.returns [4], .loadHangs, .returns [7]])).2 =
        [⟨1, "Conversion timeout after 60s for item at index 1", "timeout"⟩]
    ∧ convert_batch_endpoint ["<p>A</p>", "<p>X</p>", "<p>B</p>"]
        [.returns [4], .loadHangs, .returns [7]] .zipFormat =
      .handled (.zipFile ⟨[("document_1.pdf", [4]), ("document_3.pdf", [7])],
        [("Content-Disposition", "attachment; filename=documents.zip"),
         ("X-Conversion-Errors", "1"), ("X-Conversion-Success", "2")]⟩) := by
  decide

/-- C7: for a batch with at least one success, inline mode returns the
success count, failure count, original total, and the mapping from each
successful job's original index to the base64 text of its PDF bytes; the
ordered failure-descriptor list (ascending by index) is present exactly
when failures exist. -/
theorem c7_json_packaging (bs : List EngineBehavior)
    (h : (classifyResults (runBatchResults bs)).1.length ≠ 0) :
    convert_batch_html_to_pdf bs .jsonFormat =
      .jsonBody ⟨(classifyResults (runBatchResults bs)).1.length,
        (classifyResults (runBatchResults bs)).2.length,
        bs.length,
        (classifyResults (runBatchResults bs)).1.map (fun p => (p.1, b64encode p.2)),
        if (classifyResults (runBatchResults bs)).2 = [] then none
        else some (classifyResults (runBatchResults bs)).2⟩
    ∧ List.Pairwise (fun a b : BatchError => a.index < b.index)
        (classifyResults (runBatchResults bs)).2
    ∧ (classifyResults (runBatchResults bs)).1.length +
        (classifyResults (runBatchResults bs)).2.length = bs.length := by
  refine ⟨by simp [convert_batch_html_to_pdf, h], ?_, ?_⟩
  · rw [classifyResults_runBatch bs]
    exact errsFrom_sorted _ 0
  · rw [classifyResults_runBatch bs]
    simp only
    rw [oks_errs_length]
    simpa [runBatchResults] using runBatchFrom_length bs 0

/-- C7 witness: the three-job batch with one failure yields the inline
response with counts `(2, 1)`, total 3, base64 payloads keyed by original
index, and the failure-descriptor list present. -/
theorem c7_json_packaging_witness :
    convert_batch_html_to_pdf [.returns [1, 2], .loadHangs, .returns [9]] .jsonFormat =
      .jsonBody ⟨2, 1, 3, [(0, "AQI="), (2, "CQ==")],
        some [⟨1, "Conversion timeout after 60s for item at index 1", "timeout"⟩]⟩ := by
  rw [(c7_json_packaging [.returns [1, 2], .loadHangs, .returns [9]] (by decide)).1]
  decide

/-- C8: in every interleaving of any number of concurrent callers of
`_get_browser` starting with no live handle, at most one engine connection
ever exists (`creations ≤ 1` in every reachable state, and the single
cached slot holds the only live handle), and once every caller has
returned, exactly one connection was created: the double-checked locking —
optimistic validity check, mutually exclusive lock, second check under the
lock — makes every caller but the creator skip creation. -/
theorem c8_single_creation (n : Nat) (s : BrowserState) (h : BrowserReach n s) :
    s.creations ≤ 1
    ∧ ((∀ i, i < n → s.pcs.getD i .done = CallerPC.done) → 0 < n →
        s.creations = 1) := by
  obtain ⟨⟨hnone, hsome⟩, hlen⟩ := browserReach_inv n s h
  constructor
  · cases hb : s.browser with
    | none =>
      have := (hnone hb).1
      omega
    | some v =>
      have := hsome (by simp [hb])
      omega
  · intro hdone hn
    cases hb : s.browser with
    | some v => exact hsome (by simp [hb])
    | none =>
      exfalso
      have h0 : s.pcs.getD 0 CallerPC.done = CallerPC.done := hdone 0 hn
      have hpos : 0 < s.pcs.length := by omega
      have hmem : s.pcs.getD 0 CallerPC.done ∈ s.pcs := by
        rw [List.getD_eq_getElem s.pcs CallerPC.done hpos]
        exact List.getElem_mem hpos
      exact (hnone hb).2 _ hmem h0

/-- C8 witness: a complete interleaving of two callers — caller 0 misses
the optimistic check, acquires the lock, creates; caller 1 then sees the
valid handle and skips — ends with exactly one creation. -/
theorem c8_single_creation_witness :
    (⟨some 0, none, 1, [CallerPC.done, CallerPC.done]⟩ : BrowserState).creations = 1 := by
  have hs1 : BrowserStep (initBrowserState 2)
      ⟨none, none, 0, [CallerPC.waitLock, CallerPC.start]⟩ :=
    BrowserStep.checkInvalid (initBrowserState 2) 0 rfl rfl
  have hs2 : BrowserStep ⟨none, none, 0, [CallerPC.waitLock, CallerPC.start]⟩
      ⟨none, some 0, 0, [CallerPC.locked, CallerPC.start]⟩ :=
    BrowserStep.acquire _ 0 rfl rfl
  have hs3 : BrowserStep ⟨none, some 0, 0, [CallerPC.locked, CallerPC.start]⟩
      ⟨some 0, none, 1, [CallerPC.done, CallerPC.start]⟩ :=
    BrowserStep.create _ 0 rfl rfl rfl
  have hs4 : BrowserStep ⟨some 0, none, 1, [CallerPC.done, CallerPC.start]⟩
      ⟨some 0, none, 1, [CallerPC.done, CallerPC.done]⟩ :=
    BrowserStep.checkValid _ 1 rfl rfl
  have hreach : BrowserReach 2 ⟨some 0, none, 1, [CallerPC.done, CallerPC.done]⟩ :=
    Relation.ReflTransGen.head hs1 (Relation.ReflTransGen.head hs2
      (Relation.ReflTransGen.head hs3 (Relation.ReflTransGen.head hs4
        Relation.ReflTransGen.refl)))
  exact (c8_single_creation 2 _ hreach).2 (by decide) (by decide)

/-- C10: for any options dict containing the four mandatory recognized
fields, the options handed to the engine's print-to-PDF call are exactly
`format`, `margin`, `print_background`, `scale` (copied from the input),
`display_header_footer = True`, `header_template = "<div></div>"`,
`footer_template = FOOTER_TEMPLATE`, plus `landscape = True` appended if
and only if the input's `landscape` value is truthy (a falsy or absent
`landscape` leaves the key out); nothing else of the input dict — in
particular no unrecognized key — appears in the output. -/
theorem c10_build_pdf_options (d : List (String × PyVal))
    (vf vm vpb vsc : PyVal)
    (hf : d.lookup "format" = some vf) (hm : d.lookup "margin" = some vm)
    (hpb : d.lookup "print_background" = some vpb)
    (hsc : d.lookup "scale" = some vsc) :
    build_pdf_options d =
      some ([("format", vf), ("margin", vm), ("print_background", vpb),
         ("scale", vsc), ("display_header_footer", PyVal.vbool true),
         ("header_template", PyVal.vstr "<div></div>"),
         ("footer_template", PyVal.vstr FOOTER_TEMPLATE)] ++
        (if truthyOpt (d.lookup "landscape") then [("landscape", PyVal.vbool true)]
         else [])) := by
  cases hL : truthyOpt (d.lookup "landscape") <;>
    simp [build_pdf_options, hf, hm, hpb, hsc, hL]

set_option maxRecDepth 4000 in
/-- C10 witness: the default options extended with an unrecognized key
produce exactly the seven fixed keys — the unrecognized key is ignored and
the falsy `landscape` is omitted. -/
theorem c10_build_pdf_options_witness :
    build_pdf_options (DEFAULT_PDF_OPTIONS ++ [("unrecognized", PyVal.vstr "zzz")]) =
      some [("format", PyVal.vstr "A4"),
        ("margin", PyVal.vdict
          [("top", "2cm"), ("right", "2cm"), ("bottom", "2cm"), ("left", "2cm")]),
        ("print_background", PyVal.vbool true),
        ("scale", PyVal.vnum 1),
        ("display_header_footer", PyVal.vbool true),
        ("header_template", PyVal.vstr "<div></div>"),
        ("footer_template", PyVal.vstr FOOTER_TEMPLATE)] := by
  have h := c10_build_pdf_options
    (DEFAULT_PDF_OPTIONS ++ [("unrecognized", PyVal.vstr "zzz")])
    (PyVal.vstr "A4")
    (PyVal.vdict [("top", "2cm"), ("right", "2cm"), ("bottom", "2cm"), ("left", "2cm")])
    (PyVal.vbool true) (PyVal.vnum 1)
    (by decide) (by decide) (by decide) (by decide)
  rw [h]
  decide
